import Mathlib

/-!
# Verification of the meteo adaptive fetch loop

Shallow embedding of the repository's core:
* `src/API/get_data.py` — `create_new_rectangles`, `estimate_grid_size`,
  `get_response` (the queue-driven fetch loop);
* `src/API/utils.py` — `write_bbox`, `read_data_bbox`, `get_sized_bboxes`;
* `src/utils/default_values.py` — `get_coordinates`.

Coordinates are modelled as rationals (`ℚ`); Python's float coordinates are
exact decimals in every test and configuration value of the repository, so the
arithmetic on them is faithful.  The remote provider (`openmeteo.weather_api`)
is abstracted as a function from the call index to an outcome: either a
payload or the message string of the raised exception.  Python statements are
modelled in source order on an explicit loop state; the logging statement that
follows the `try/except` block reads the local variable `result`, which is
unbound until the first success, so the embedding models the resulting
`UnboundLocalError` explicitly (`PyErr.unboundLocalResult`).
-/

namespace Meteo

attribute [local semireducible] Rat.add Rat.sub Rat.mul Rat.inv Rat.ofScientific

/-- A bounding box `(north, south, west, est)`, as the tuples used by
`get_data.py` (the repository spells east as `est`). -/
structure Box where
  north : ℚ
  south : ℚ
  west : ℚ
  est : ℚ
deriving DecidableEq, Repr

/-- Python's `round` ties-to-even on the integer midpoint (banker's rounding),
used by `round(x, 3)` in the dedup key. -/
def roundHalfEven (q : ℚ) : ℤ :=
  if q - ⌊q⌋ < 1 / 2 then ⌊q⌋
  else if 1 / 2 < q - ⌊q⌋ then ⌊q⌋ + 1
  else if ⌊q⌋ % 2 = 0 then ⌊q⌋ else ⌊q⌋ + 1

/-- Model of `round(x, 3)` from the dedup-key computation in `get_response`. -/
def round3 (q : ℚ) : ℚ := (roundHalfEven (q * 1000) : ℚ) / 1000

/-- The dedup key of a box: each coordinate rounded to 3 decimal places
(`get_data.py`, lines 71–76). -/
def boxKey (b : Box) : ℚ × ℚ × ℚ × ℚ :=
  (round3 b.north, round3 b.south, round3 b.west, round3 b.est)

/-- Model of `create_new_rectangles` (`get_data.py`, lines 19–40): the four quadrant
sub-boxes obtained from the midpoints. -/
def create_new_rectangles (north south west est : ℚ) : List Box :=
  let mid_lat := (north + south) / 2
  let mid_lon := (west + est) / 2
  [⟨north, mid_lat, west, mid_lon⟩,
   ⟨north, mid_lat, mid_lon, est⟩,
   ⟨mid_lat, south, west, mid_lon⟩,
   ⟨mid_lat, south, mid_lon, est⟩]

/-- Model of `estimate_grid_size` (`get_data.py`, lines 43–45):
`abs(north - south) * abs(est - west) / 0.1**2`. -/
def estimate_grid_size (north south west est : ℚ) : ℚ :=
  |north - south| * |est - west| / (1 / 10) ^ 2

/-- Default of the `waiting_time` keyword of `get_response`. -/
def defaultWaitingTime : ℕ := 70

/-- Default of the `max_locations` keyword of `get_response`. -/
def defaultMaxLocations : ℚ := 1000

/-- Default of the `max_retries` keyword of `get_response`. -/
def defaultMaxRetries : ℕ := 200

/-- The literal `0.05` of the too-small check (`get_data.py`, line 82). -/
def minBoxExtent : ℚ := 0.05

/-- The literal `300` capping the doubled backoff (`get_data.py`, line 123). -/
def backoffCeiling : ℕ := 300

/-- The literal `2` of `time.sleep(2)` on an unclassified error
(`get_data.py`, line 127). -/
def otherErrorSleep : ℕ := 2

/-- Python's `needle in hay` on character lists restricted to character lists:
some contiguous substring of `hay` equals `needle`. -/
def isSubstrList : List Char → List Char → Bool
  | needle, [] => needle.isEmpty
  | needle, c :: cs => needle.isPrefixOf (c :: cs) || isSubstrList needle cs

/-- Python's `needle in hay` substring test. -/
def pyIn (needle hay : String) : Bool := isSubstrList needle.data hay.data

/-- Python's `str.lower()` (character-wise lowering). -/
def pyLower (s : String) : String := ⟨s.data.map Char.toLower⟩

/-- One pass of Python's `str.replace` on character lists, with explicit fuel
(the haystack length suffices for the nonempty patterns used by the code). -/
def replaceFrom (needle repl : List Char) : ℕ → List Char → List Char
  | 0, hay => hay
  | _ + 1, [] => []
  | fuel + 1, c :: cs =>
    if needle.isPrefixOf (c :: cs) && !needle.isEmpty then
      repl ++ replaceFrom needle repl fuel ((c :: cs).drop needle.length)
    else
      c :: replaceFrom needle repl fuel cs

/-- Python's `s.replace(pat, rep)` (all occurrences, left to right). -/
def pyReplace (s pat rep : String) : String :=
  ⟨replaceFrom pat.data rep.data s.data.length s.data⟩

/-- A Python dict restricted to the string-valued entries the loop touches;
the remaining entries of the query template never change and carry no
information for the loop, so they are omitted. -/
abbrev Dict := List (String × String)

/-- Lookup `d[k]` as an optional lookup (`None` when the key is absent, where Python
would raise `KeyError`). -/
def dictGet (d : Dict) (k : String) : Option String :=
  (d.find? (fun p => p.1 == k)).map (fun p => p.2)

/-- Assignment `d[k] = v`: overwrite the binding when present, append it otherwise. -/
def dictSet (d : Dict) (k v : String) : Dict :=
  if (d.find? (fun p => p.1 == k)).isSome then
    d.map (fun p => if p.1 == k then (k, v) else p)
  else d ++ [(k, v)]

/-- The uncaught exceptions the fetch loop can raise. -/
inductive PyErr where
  /-- Python `UnboundLocalError`: the logging statement after the `try/except` block
  reads `result`, which is unbound until the first success. -/
  | unboundLocalResult
  /-- Python `KeyError`: `params_template["bounding_box"]` with the key absent. -/
  | keyErrorBoundingBox
deriving DecidableEq, Repr

/-- The bounding-box substitution (`get_data.py`, lines 97–103), in source
order `SOUTH`, `NORTH`, `WEST`, `EST`.  Rational-to-string rendering stands in
for Python's `str(float)`; no claim depends on the rendered digits. -/
def substituteBBox (template : String) (north south west est : ℚ) : String :=
  pyReplace
    (pyReplace
      (pyReplace
        (pyReplace template "<SOUTH>" (toString south))
        "<NORTH>" (toString north))
      "<WEST>" (toString west))
    "<EST>" (toString est)

/-- The mutable state of one `get_response` run: the Python locals
`bounding_boxes`, `results`, `checked_boxes`, `failures`, `waiting_time`,
`result`, `params`, plus the call counter of the provider, the record of
`time.sleep` durations, the (copied-from) template dict, and the pending
uncaught exception. -/
structure LoopState (P : Type) where
  queue : List Box
  results : List P
  checked : List (ℚ × ℚ × ℚ × ℚ)
  failures : ℕ
  waiting : ℕ
  callIdx : ℕ
  sleeps : List ℕ
  resultVar : Option P
  templateD : Dict
  params : Dict
  error : Option PyErr
deriving DecidableEq, Repr

/-- The run-constant inputs of the loop: the provider (indexed by call count)
and the `max_locations` / `max_retries` arguments. -/
structure FetchParams (P : Type) where
  provider : ℕ → Except String P
  max_locations : ℚ
  max_retries : ℕ

/-- The loop stops when an exception escaped, the queue is empty, or the
failure count reached `max_retries` (`while bounding_boxes and
failures < max_retries`). -/
def isTerminal (cfg : FetchParams P) (s : LoopState P) : Bool :=
  s.error.isSome || s.queue.isEmpty || decide (cfg.max_retries ≤ s.failures)

/-- The logging statement after the `try/except` block
(`get_data.py`, lines 130–132) evaluates `len(result)`; it raises
`UnboundLocalError` when no success has bound `result` yet. -/
def afterTryLog (s : LoopState P) : LoopState P :=
  if s.resultVar.isNone then { s with error := some PyErr.unboundLocalResult }
  else s

/-- One iteration of the `while` body on the dequeued box `b` with remaining
queue `rest` (`get_data.py`, lines 68–132). -/
def processBox (cfg : FetchParams P) (s : LoopState P) (b : Box)
    (rest : List Box) : LoopState P :=
  if boxKey b ∈ s.checked then { s with queue := rest }
  else
    let s1 := { s with queue := rest, checked := boxKey b :: s.checked }
    if |b.north - b.south| < minBoxExtent ∨ |b.est - b.west| < minBoxExtent then
      s1
    else if cfg.max_locations < estimate_grid_size b.north b.south b.west b.est then
      { s1 with queue := rest ++ create_new_rectangles b.north b.south b.west b.est }
    else
      match dictGet s1.templateD "bounding_box" with
      | none => { s1 with error := some PyErr.keyErrorBoundingBox }
      | some tmpl =>
        let s2 := { s1 with
          params := dictSet s1.params "bounding_box"
            (substituteBBox tmpl b.north b.south b.west b.est),
          callIdx := s1.callIdx + 1 }
        match cfg.provider s1.callIdx with
        | Except.ok payload =>
          afterTryLog { s2 with
            results := s2.results ++ [payload],
            resultVar := some payload }
        | Except.error reason =>
          let s3 :=
            if pyIn "1000 locations" reason || pyIn "too many" (pyLower reason) then
              { s2 with queue := rest ++ create_new_rectangles b.north b.south b.west b.est }
            else if pyIn "API request limit exceeded" reason then
              { s2 with
                sleeps := s2.sleeps ++ [s2.waiting],
                waiting := min (s2.waiting * 2) backoffCeiling }
            else
              { s2 with sleeps := s2.sleeps ++ [otherErrorSleep] }
          afterTryLog { s3 with failures := s3.failures + 1 }

/-- One guarded loop iteration: the identity on terminal states. -/
def step (cfg : FetchParams P) (s : LoopState P) : LoopState P :=
  if isTerminal cfg s then s
  else
    match s.queue with
    | [] => s
    | b :: rest => processBox cfg s b rest

/-- Iterate the guarded step `n` times. -/
def stepN (cfg : FetchParams P) : ℕ → LoopState P → LoopState P
  | 0, s => s
  | n + 1, s => stepN cfg n (step cfg s)

/-- Any extent drops below `minBoxExtent` after finitely many halvings:
the archimedean fact behind the too-small check bounding the split depth. -/
theorem exists_depth_bound (d : ℚ) : ∃ k : ℕ, d < minBoxExtent * 2 ^ k := by
  obtain ⟨k, hk⟩ :=
    pow_unbounded_of_one_lt (d / minBoxExtent) (by norm_num : (1 : ℚ) < 2)
  refine ⟨k, ?_⟩
  have hpos : (0 : ℚ) < minBoxExtent := by norm_num [minBoxExtent]
  calc d = d / minBoxExtent * minBoxExtent := by field_simp
    _ < 2 ^ k * minBoxExtent := mul_lt_mul_of_pos_right hk hpos
    _ = minBoxExtent * 2 ^ k := mul_comm _ _

/-- The number of halvings after which an extent passes below
`minBoxExtent`: the maximal split depth of a box with that extent. -/
def dDepth (d : ℚ) : ℕ := Nat.find (exists_depth_bound d)

theorem dDepth_spec (d : ℚ) : d < minBoxExtent * 2 ^ dDepth d :=
  Nat.find_spec (exists_depth_bound d)

theorem dDepth_min {d : ℚ} {m : ℕ} (h : m < dDepth d) :
    ¬ d < minBoxExtent * 2 ^ m :=
  Nat.find_min (exists_depth_bound d) h

theorem dDepth_pos {d : ℚ} (h : ¬ d < minBoxExtent) : 0 < dDepth d := by
  rcases Nat.eq_zero_or_pos (dDepth d) with h0 | h1
  · exfalso
    have hs := dDepth_spec d
    rw [h0, pow_zero, mul_one] at hs
    exact h hs
  · exact h1

theorem dDepth_half {d : ℚ} (h : 0 < dDepth d) :
    dDepth (d / 2) = dDepth d - 1 := by
  have hspec := dDepth_spec d
  show Nat.find _ = _
  rw [Nat.find_eq_iff]
  constructor
  · have h2 : minBoxExtent * 2 ^ (dDepth d - 1) * 2 = minBoxExtent * 2 ^ dDepth d := by
      rw [mul_assoc, ← pow_succ]
      congr 2
      omega
    rw [div_lt_iff (by norm_num : (0 : ℚ) < 2), h2]
    exact hspec
  · intro m hm hcon
    rw [div_lt_iff (by norm_num : (0 : ℚ) < 2)] at hcon
    have hup : d < minBoxExtent * 2 ^ (m + 1) := by
      rw [pow_succ, ← mul_assoc]
      exact hcon
    exact dDepth_min (show m + 1 < dDepth d by omega) hup

/-- Termination weight of one queued box. -/
def boxWeight (b : Box) : ℕ := 5 ^ dDepth |b.north - b.south|

/-- Termination weight of the whole queue. -/
def queueWeight (q : List Box) : ℕ := (q.map boxWeight).sum

theorem boxWeight_pos (b : Box) : 0 < boxWeight b :=
  pow_pos (by norm_num) _

theorem queueWeight_append (q r : List Box) :
    queueWeight (q ++ r) = queueWeight q + queueWeight r := by
  simp [queueWeight]

theorem queueWeight_cons (b : Box) (q : List Box) :
    queueWeight (b :: q) = boxWeight b + queueWeight q := by
  simp [queueWeight]

/-- A box that passed the too-small check loses strict weight when replaced
by its four children: each child halves the north–south extent. -/
theorem children_weight {n s w e : ℚ} (h : ¬ |n - s| < minBoxExtent) :
    queueWeight (create_new_rectangles n s w e) < boxWeight ⟨n, s, w, e⟩ := by
  have hpos := dDepth_pos h
  have hhalf : dDepth (|n - s| / 2) = dDepth |n - s| - 1 := dDepth_half hpos
  have e1 : |n - (n + s) / 2| = |n - s| / 2 := by
    rw [show n - (n + s) / 2 = (n - s) / 2 by ring, abs_div]
    norm_num
  have e2 : |(n + s) / 2 - s| = |n - s| / 2 := by
    rw [show (n + s) / 2 - s = (n - s) / 2 by ring, abs_div]
    norm_num
  have hfive : (5 : ℕ) ^ dDepth |n - s| = 5 ^ (dDepth |n - s| - 1) * 5 := by
    rw [← pow_succ]
    congr 1
    omega
  have hp : 0 < (5 : ℕ) ^ (dDepth |n - s| - 1) := pow_pos (by norm_num) _
  simp only [queueWeight, create_new_rectangles, boxWeight, List.map_cons,
    List.map_nil, List.sum_cons, List.sum_nil, e1, e2, hhalf]
  omega

theorem children_weight_box (b : Box) (h : ¬ |b.north - b.south| < minBoxExtent) :
    queueWeight (create_new_rectangles b.north b.south b.west b.est) < boxWeight b := by
  obtain ⟨bn, bs, bw, be⟩ := b
  exact children_weight h

@[simp] theorem afterTryLog_queue (s : LoopState P) :
    (afterTryLog s).queue = s.queue := by
  unfold afterTryLog
  split <;> rfl

@[simp] theorem afterTryLog_results (s : LoopState P) :
    (afterTryLog s).results = s.results := by
  unfold afterTryLog
  split <;> rfl

@[simp] theorem afterTryLog_checked (s : LoopState P) :
    (afterTryLog s).checked = s.checked := by
  unfold afterTryLog
  split <;> rfl

@[simp] theorem afterTryLog_failures (s : LoopState P) :
    (afterTryLog s).failures = s.failures := by
  unfold afterTryLog
  split <;> rfl

@[simp] theorem afterTryLog_waiting (s : LoopState P) :
    (afterTryLog s).waiting = s.waiting := by
  unfold afterTryLog
  split <;> rfl

@[simp] theorem afterTryLog_callIdx (s : LoopState P) :
    (afterTryLog s).callIdx = s.callIdx := by
  unfold afterTryLog
  split <;> rfl

@[simp] theorem afterTryLog_sleeps (s : LoopState P) :
    (afterTryLog s).sleeps = s.sleeps := by
  unfold afterTryLog
  split <;> rfl

@[simp] theorem afterTryLog_templateD (s : LoopState P) :
    (afterTryLog s).templateD = s.templateD := by
  unfold afterTryLog
  split <;> rfl

@[simp] theorem afterTryLog_params (s : LoopState P) :
    (afterTryLog s).params = s.params := by
  unfold afterTryLog
  split <;> rfl

/-- The queue after one body iteration: either the dequeued box is consumed,
or it is replaced at the back by its four children, and in the latter case it
had passed the too-small check. -/
theorem processBox_queue_cases (cfg : FetchParams P) (s : LoopState P)
    (b : Box) (rest : List Box) :
    (processBox cfg s b rest).queue = rest ∨
      ((processBox cfg s b rest).queue
          = rest ++ create_new_rectangles b.north b.south b.west b.est ∧
        ¬ |b.north - b.south| < minBoxExtent) := by
  unfold processBox
  by_cases hdup : boxKey b ∈ s.checked
  · simp [hdup]
  · simp only [hdup, if_false, ite_false]
    by_cases hsmall : |b.north - b.south| < minBoxExtent ∨
        |b.est - b.west| < minBoxExtent
    · simp [hsmall]
    · have hns : ¬ |b.north - b.south| < minBoxExtent := fun hh => hsmall (Or.inl hh)
      have hew : ¬ |b.est - b.west| < minBoxExtent := fun hh => hsmall (Or.inr hh)
      by_cases hbig : cfg.max_locations
          < estimate_grid_size b.north b.south b.west b.est
      · simp [hsmall, hbig, hns, hew]
      · simp only [hsmall, hbig, hns, hew, if_false, ite_false]
        cases hdg : dictGet s.templateD "bounding_box" with
        | none => simp
        | some tmpl =>
          cases hpr : cfg.provider s.callIdx with
          | ok p => simp
          | error reason =>
            by_cases hcls : (pyIn "1000 locations" reason
                || pyIn "too many" (pyLower reason)) = true
            · simp [hcls, hns]
            · by_cases hrl : pyIn "API request limit exceeded" reason = true
              · simp [hcls, hrl]
              · simp [hcls, hrl]

/-- Each non-terminal iteration strictly decreases the queue weight. -/
theorem step_queue_lt (cfg : FetchParams P) (s : LoopState P)
    (h : isTerminal cfg s = false) :
    queueWeight (step cfg s).queue < queueWeight s.queue := by
  cases hq : s.queue with
  | nil => simp [isTerminal, hq] at h
  | cons b rest =>
    have hstep : step cfg s = processBox cfg s b rest := by
      unfold step
      rw [h, hq]
      rfl
    rw [hstep]
    rcases processBox_queue_cases cfg s b rest with h1 | ⟨h1, h2⟩
    · rw [h1, queueWeight_cons]
      have := boxWeight_pos b
      omega
    · rw [h1, queueWeight_cons, queueWeight_append]
      have := children_weight_box b h2
      omega

/-- The `while` loop of `get_response`, by well-founded recursion on the
queue weight. -/
def run (cfg : FetchParams P) (s : LoopState P) : LoopState P :=
  if h : isTerminal cfg s = true then s
  else run cfg (step cfg s)
termination_by queueWeight s.queue
decreasing_by exact step_queue_lt cfg s (Bool.not_eq_true _ ▸ eq_false_of_ne_true h)

/-- The initial loop state built by `get_response` (`get_data.py`,
lines 61–65): `params = params_template.copy()`,
`bounding_boxes = deque([(north, south, west, est)])`, empty results and
visited set, zero failures. -/
def initState (north south west est : ℚ) (params_template : Dict)
    (waiting_time : ℕ) : LoopState P :=
  { queue := [⟨north, south, west, est⟩], results := [], checked := [],
    failures := 0, waiting := waiting_time, callIdx := 0, sleeps := [],
    resultVar := none, templateD := params_template,
    params := params_template, error := none }

/-- The final loop state of `get_response` for a given provider behaviour. -/
def get_response_final (provider : ℕ → Except String P)
    (north south west est : ℚ) (params_template : Dict)
    (waiting_time : ℕ := defaultWaitingTime)
    (max_locations : ℚ := defaultMaxLocations)
    (max_retries : ℕ := defaultMaxRetries) : LoopState P :=
  run ⟨provider, max_locations, max_retries⟩
    (initState north south west est params_template waiting_time)

/-- Model of `get_response` (`get_data.py`, lines 48–133): the collected `results`
on normal exit of the `while` loop, or the uncaught exception. -/
def get_response (provider : ℕ → Except String P)
    (north south west est : ℚ) (params_template : Dict)
    (waiting_time : ℕ := defaultWaitingTime)
    (max_locations : ℚ := defaultMaxLocations)
    (max_retries : ℕ := defaultMaxRetries) : Except PyErr (List P) :=
  match (get_response_final provider north south west est params_template
      waiting_time max_locations max_retries).error with
  | some e => Except.error e
  | none => Except.ok (get_response_final provider north south west est
      params_template waiting_time max_locations max_retries).results

/-- The checkpoint file contents: the header row written by `write_bbox` and
one row of four coordinates per box.  Serialisation of the numbers themselves
is lossless at this granularity (one CSV row per box, fixed column order). -/
structure BboxFile where
  header : List String
  rows : List Box
deriving DecidableEq, Repr

/-- Model of `write_bbox` (`utils.py`, lines 14–39): serialise the queue in order,
with header `north, south, west, est`. -/
def write_bbox (bbox : List Box) : BboxFile :=
  { header := ["north", "south", "west", "est"], rows := bbox }

/-- Model of `read_data_bbox` (`utils.py`, lines 42–67): an absent file yields an
empty queue, otherwise the rows are returned in file order. -/
def read_data_bbox : Option BboxFile → List Box
  | none => []
  | some f => f.rows

/-- Model of `get_coordinates` (`default_values.py`, lines 18–22): the first
space-separated token of each configured limit string `"51 30 N"`,
`"41 N"`, `"005 48 W"`, `"10 E"` parsed as a number, in the order
north, south, west, est. -/
def get_coordinates : Box := ⟨51, 41, 5, 10⟩

/-- Model of `get_sized_bboxes` (`utils.py`, lines 70–95): the persisted queue when
non-empty, else the single default box (the configured region when none is
given). -/
def get_sized_bboxes (file : Option BboxFile) (default_bbox : Option Box) :
    List Box :=
  let bbox := read_data_bbox file
  let default_bbox_deque :=
    match default_bbox with
    | some b => [b]
    | none => [get_coordinates]
  if bbox.length ≠ 0 then bbox else default_bbox_deque

/-- The area of a box in square degrees, `|north − south| × |est − west|`. -/
def boxArea (b : Box) : ℚ := |b.north - b.south| * |b.est - b.west|

/-- A point `(latitude, longitude)` lies in the closed rectangle of a box. -/
def memBox (b : Box) (p : ℚ × ℚ) : Prop :=
  b.south ≤ p.1 ∧ p.1 ≤ b.north ∧ b.west ≤ p.2 ∧ p.2 ≤ b.est

/-- The `bounding_box` entry of the query template
(`params.py` / `call_api`), with its four placeholder markers. -/
def exampleTemplate : Dict := [("bounding_box", "<SOUTH>,<WEST>,<NORTH>,<EST>")]

/-- A provider whose every call raises an unclassified exception. -/
def boomProvider : ℕ → Except String ℕ := fun _ => Except.error "boom"

/-- The provider of the repository's rate-limit test: the first call raises
the rate-limit message, every later call succeeds. -/
def rateLimitProvider : ℕ → Except String ℕ := fun n =>
  if n = 0 then Except.error "API request limit exceeded" else Except.ok 7

/-- A provider that always succeeds, returning the call index as payload. -/
def okProvider : ℕ → Except String ℕ := fun n => Except.ok n

/-- Loop parameters with the all-success provider and the default
`max_locations` / `max_retries`. -/
def cfgOk : FetchParams ℕ := ⟨okProvider, defaultMaxLocations, defaultMaxRetries⟩

theorem run_eq_of_terminal {cfg : FetchParams P} {s : LoopState P}
    (h : isTerminal cfg s = true) : run cfg s = s := by
  rw [run, dif_pos h]

theorem run_eq_of_not_terminal {cfg : FetchParams P} {s : LoopState P}
    (h : isTerminal cfg s = false) : run cfg s = run cfg (step cfg s) := by
  rw [run]
  simp [h]

theorem step_of_terminal {cfg : FetchParams P} {s : LoopState P}
    (h : isTerminal cfg s = true) : step cfg s = s := by
  unfold step
  rw [h]
  rfl

theorem stepN_of_terminal {cfg : FetchParams P} {s : LoopState P}
    (h : isTerminal cfg s = true) : ∀ n, stepN cfg n s = s := by
  intro n
  induction n with
  | zero => rfl
  | succ n ih =>
    show stepN cfg n (step cfg s) = s
    rw [step_of_terminal h]
    exact ih

/-- The loop value is reached by finitely many guarded iterations: full
evaluation of concrete runs goes through this bridge. -/
theorem run_of_stepN_terminal (cfg : FetchParams P) :
    ∀ (n : ℕ) (s : LoopState P), isTerminal cfg (stepN cfg n s) = true →
      run cfg s = stepN cfg n s := by
  intro n
  induction n with
  | zero => exact fun s h => run_eq_of_terminal h
  | succ n ih =>
    intro s h
    by_cases ht : isTerminal cfg s = true
    · rw [run_eq_of_terminal ht]
      rw [show stepN cfg (n + 1) s = stepN cfg n (step cfg s) from rfl,
        step_of_terminal ht, stepN_of_terminal ht]
    · have hf : isTerminal cfg s = false := eq_false_of_ne_true ht
      rw [run_eq_of_not_terminal hf]
      exact ih (step cfg s) h

/-- Every run reaches a terminal state in finitely many iterations. -/
theorem run_reached (cfg : FetchParams P) (s : LoopState P) :
    ∃ n, stepN cfg n s = run cfg s ∧ isTerminal cfg (stepN cfg n s) = true := by
  have H : ∀ w : ℕ, ∀ s : LoopState P, queueWeight s.queue < w →
      ∃ n, stepN cfg n s = run cfg s ∧ isTerminal cfg (stepN cfg n s) = true := by
    intro w
    induction w with
    | zero => intro s hw; omega
    | succ w ih =>
      intro s hw
      by_cases ht : isTerminal cfg s = true
      · exact ⟨0, (run_eq_of_terminal ht).symm, ht⟩
      · have hf : isTerminal cfg s = false := eq_false_of_ne_true ht
        have hlt := step_queue_lt cfg s hf
        obtain ⟨n, h1, h2⟩ := ih (step cfg s) (by omega)
        refine ⟨n + 1, ?_, h2⟩
        rw [show stepN cfg (n + 1) s = stepN cfg n (step cfg s) from rfl, h1,
          run_eq_of_not_terminal hf]
  exact H (queueWeight s.queue + 1) s (by omega)

/-- No branch of the loop body writes to the template dict: the only dict
assignment targets the copy `params`. -/
theorem processBox_templateD (cfg : FetchParams P) (s : LoopState P)
    (b : Box) (rest : List Box) :
    (processBox cfg s b rest).templateD = s.templateD := by
  unfold processBox
  by_cases hdup : boxKey b ∈ s.checked
  · simp [hdup]
  · simp only [hdup, if_false, ite_false]
    by_cases hsmall : |b.north - b.south| < minBoxExtent ∨
        |b.est - b.west| < minBoxExtent
    · simp [hsmall]
    · have hns : ¬ |b.north - b.south| < minBoxExtent := fun hh => hsmall (Or.inl hh)
      have hew : ¬ |b.est - b.west| < minBoxExtent := fun hh => hsmall (Or.inr hh)
      by_cases hbig : cfg.max_locations
          < estimate_grid_size b.north b.south b.west b.est
      · simp [hsmall, hbig, hns, hew]
      · simp only [hsmall, hbig, hns, hew, if_false, ite_false]
        cases hdg : dictGet s.templateD "bounding_box" with
        | none => simp
        | some tmpl =>
          cases hpr : cfg.provider s.callIdx with
          | ok p => simp
          | error reason =>
            by_cases hcls : (pyIn "1000 locations" reason
                || pyIn "too many" (pyLower reason)) = true
            · simp [hcls]
            · by_cases hrl : pyIn "API request limit exceeded" reason = true
              · simp [hcls, hrl]
              · simp [hcls, hrl]

theorem step_templateD (cfg : FetchParams P) (s : LoopState P) :
    (step cfg s).templateD = s.templateD := by
  unfold step
  by_cases ht : isTerminal cfg s = true
  · rw [ht]
    rfl
  · rw [eq_false_of_ne_true ht]
    cases hq : s.queue with
    | nil => rfl
    | cons b rest => exact processBox_templateD cfg s b rest

theorem stepN_templateD (cfg : FetchParams P) :
    ∀ (n : ℕ) (s : LoopState P), (stepN cfg n s).templateD = s.templateD := by
  intro n
  induction n with
  | zero => intro s; rfl
  | succ n ih =>
    intro s
    show (stepN cfg n (step cfg s)).templateD = s.templateD
    rw [ih (step cfg s), step_templateD]

theorem run_templateD (cfg : FetchParams P) (s : LoopState P) :
    (run cfg s).templateD = s.templateD := by
  obtain ⟨n, h1, _⟩ := run_reached cfg s
  rw [← h1, stepN_templateD]

/-- C1 (code bug): the claim says `get_response` catches every provider-side
failure and never raises past its boundary; but when the very first provider
call fails (here with an unclassified `"boom"` error), the logging statement
after the `try/except` block reads the still-unbound local `result` and the
loop raises `UnboundLocalError` instead of returning the (empty) results.
The repository's own tests exercise first-call failures and expect success. -/
theorem C1_first_call_failure_raises :
    get_response boomProvider 49 48 5 6 exampleTemplate
      = Except.error PyErr.unboundLocalResult := by
  unfold get_response get_response_final
  rw [run_of_stepN_terminal
    ⟨boomProvider, defaultMaxLocations, defaultMaxRetries⟩ 1
    (initState 49 48 5 6 exampleTemplate defaultWaitingTime) (by decide)]
  rfl

/-- C2 (code bug): on a rate-limited first call (`waiting_time = 1`, as in
the repository's rate-limit test) the loop does sleep the current backoff
and doubles it (`sleeps = [1]`, `waiting = 2`), but contrary to the claim it
does not push the box back to the front (the queue is empty), does not
remove its key from the visited set (`checked` still holds it), and charges
a failure (`failures = 1`); it then crashes on the unbound `result` before
the second call (`callIdx = 1`). -/
theorem C2_rate_limit_drops_box :
    get_response_final rateLimitProvider 50 49 2 3 exampleTemplate 1
        defaultMaxLocations defaultMaxRetries
      = { queue := [], results := [], checked := [boxKey ⟨50, 49, 2, 3⟩],
          failures := 1, waiting := 2, callIdx := 1, sleeps := [1],
          resultVar := none, templateD := exampleTemplate,
          params := [("bounding_box", "49,2,50,3")],
          error := some PyErr.unboundLocalResult } := by
  unfold get_response_final
  rw [run_of_stepN_terminal
    ⟨rateLimitProvider, defaultMaxLocations, defaultMaxRetries⟩ 1
    (initState 50 49 2 3 exampleTemplate 1) (by decide)]
  decide

/-- C3 (code bug): with `max_locations = 1` the box `{50.2, 50.0, 0.0, 0.2}`
splits once into four fetchable children and every provider call succeeds;
the loop keeps draining the queue and returns all 4 payloads, with no
checkpoint written — contrary to the claim (and the repository's test, which
expects the function to return after the first success with 1 payload). -/
theorem C3_loop_drains_queue_after_success :
    get_response okProvider 50.2 50.0 0.0 0.2 exampleTemplate 70 1 200
      = Except.ok [0, 1, 2, 3] := by
  unfold get_response get_response_final
  rw [run_of_stepN_terminal ⟨okProvider, 1, 200⟩ 5
    (initState 50.2 50.0 0.0 0.2 exampleTemplate 70) (by decide)]
  rfl

/-- C7 (code bug): every run of the loop reaches a terminal state after
finitely many iterations (termination holds, by the queue-weight measure
bounded through the minimum-size check); but the loop does not always run
until the queue is empty or the failure ceiling is reached: when the first
reached fetch fails, the unbound-`result` logging crash stops the run with a
non-empty queue and a failure count below the ceiling. -/
theorem C7_termination_and_early_exit :
    (∀ (P : Type) (cfg : FetchParams P) (s : LoopState P),
        ∃ n, isTerminal cfg (stepN cfg n s) = true) ∧
    (get_response_final boomProvider 50 40 0 10 exampleTemplate).error
        = some PyErr.unboundLocalResult ∧
    (get_response_final boomProvider 50 40 0 10 exampleTemplate).queue ≠ [] ∧
    (get_response_final boomProvider 50 40 0 10 exampleTemplate).failures
        < defaultMaxRetries := by
  have hrun : get_response_final boomProvider 50 40 0 10 exampleTemplate
      = stepN ⟨boomProvider, defaultMaxLocations, defaultMaxRetries⟩ 6
        (initState 50 40 0 10 exampleTemplate defaultWaitingTime) := by
    unfold get_response_final
    exact run_of_stepN_terminal _ 6 _ (by decide)
  refine ⟨?_, ?_, ?_, ?_⟩
  · intro P cfg s
    obtain ⟨n, _, h2⟩ := run_reached cfg s
    exact ⟨n, h2⟩
  · rw [hrun]
    decide
  · rw [hrun]
    decide
  · rw [hrun]
    decide

/-- C5: a dequeued box — not a duplicate, above the minimum extent on both
axes — whose `estimate_grid_size` exceeds the `max_locations` threshold is
never fetched (call count unchanged): it is replaced by exactly its 4
children pushed to the back of the queue, the loop continues, and the
failure count (and results and sleeps) are unchanged. -/
theorem C5_oversized_box_split (cfg : FetchParams P) (s : LoopState P)
    (b : Box) (rest : List Box)
    (hq : s.queue = b :: rest)
    (hterm : isTerminal cfg s = false)
    (hdup : boxKey b ∉ s.checked)
    (hns : ¬ |b.north - b.south| < minBoxExtent)
    (hew : ¬ |b.est - b.west| < minBoxExtent)
    (hbig : cfg.max_locations
      < estimate_grid_size b.north b.south b.west b.est) :
    (step cfg s).queue
        = rest ++ create_new_rectangles b.north b.south b.west b.est ∧
    (step cfg s).callIdx = s.callIdx ∧
    (step cfg s).results = s.results ∧
    (step cfg s).failures = s.failures ∧
    (step cfg s).sleeps = s.sleeps ∧
    isTerminal cfg (step cfg s) = false := by
  have hsmall : ¬ (|b.north - b.south| < minBoxExtent ∨
      |b.est - b.west| < minBoxExtent) := by
    intro hc
    rcases hc with hc | hc
    exacts [hns hc, hew hc]
  have hstep : step cfg s = processBox cfg s b rest := by
    unfold step
    rw [hterm, hq]
    rfl
  have hpb : processBox cfg s b rest =
      { s with
        queue := rest ++ create_new_rectangles b.north b.south b.west b.est,
        checked := boxKey b :: s.checked } := by
    unfold processBox
    simp [hdup, hsmall, hbig]
  rw [hstep, hpb]
  refine ⟨rfl, rfl, rfl, rfl, rfl, ?_⟩
  simp only [isTerminal, Bool.or_eq_false_iff,
    decide_eq_false_iff_not] at hterm ⊢
  obtain ⟨⟨h1, _⟩, h3⟩ := hterm
  refine ⟨⟨h1, ?_⟩, h3⟩
  cases rest <;> rfl

/-- C5 (witness): the default region `{50, 40, 0, 10}` under the default
threshold is split, not fetched, with no failure charged. -/
theorem C5_oversized_box_split_witness :
    (step cfgOk (initState 50 40 0 10 exampleTemplate 70)).queue
        = [] ++ create_new_rectangles 50 40 0 10 ∧
    (step cfgOk (initState 50 40 0 10 exampleTemplate 70)).callIdx
        = (initState 50 40 0 10 exampleTemplate 70 : LoopState ℕ).callIdx ∧
    (step cfgOk (initState 50 40 0 10 exampleTemplate 70)).failures
        = (initState 50 40 0 10 exampleTemplate 70 : LoopState ℕ).failures := by
  have h := C5_oversized_box_split cfgOk
    (initState 50 40 0 10 exampleTemplate 70) ⟨50, 40, 0, 10⟩ []
    (by decide) (by decide) (by decide) (by decide) (by decide) (by decide)
  exact ⟨h.1, h.2.1, h.2.2.2.1⟩

/-- C6: a dequeued non-duplicate box below the 0.05° minimum extent on
either axis is neither fetched nor split: it is dropped, the queue length
decreases by exactly one, and no failure is charged. -/
theorem C6_small_box_dropped (cfg : FetchParams P) (s : LoopState P)
    (b : Box) (rest : List Box)
    (hq : s.queue = b :: rest)
    (hterm : isTerminal cfg s = false)
    (hdup : boxKey b ∉ s.checked)
    (hsmall : |b.north - b.south| < minBoxExtent ∨
      |b.est - b.west| < minBoxExtent) :
    (step cfg s).queue = rest ∧
    (step cfg s).queue.length + 1 = s.queue.length ∧
    (step cfg s).callIdx = s.callIdx ∧
    (step cfg s).results = s.results ∧
    (step cfg s).failures = s.failures ∧
    (step cfg s).sleeps = s.sleeps := by
  have hstep : step cfg s = processBox cfg s b rest := by
    unfold step
    rw [hterm, hq]
    rfl
  have hpb : processBox cfg s b rest =
      { s with queue := rest, checked := boxKey b :: s.checked } := by
    unfold processBox
    simp [hdup, hsmall]
  rw [hstep, hpb, hq]
  exact ⟨rfl, rfl, rfl, rfl, rfl, rfl⟩

/-- C6 (witness): a degenerate box of zero north–south extent is dropped
without a fetch and without a failure. -/
theorem C6_small_box_dropped_witness :
    (step cfgOk (initState 50 50 0 1 exampleTemplate 70)).queue = [] ∧
    (step cfgOk (initState 50 50 0 1 exampleTemplate 70)).callIdx
        = (initState 50 50 0 1 exampleTemplate 70 : LoopState ℕ).callIdx ∧
    (step cfgOk (initState 50 50 0 1 exampleTemplate 70)).failures
        = (initState 50 50 0 1 exampleTemplate 70 : LoopState ℕ).failures := by
  have h := C6_small_box_dropped cfgOk
    (initState 50 50 0 1 exampleTemplate 70) ⟨50, 50, 0, 1⟩ []
    (by decide) (by decide) (by decide) (by decide)
  exact ⟨h.1, h.2.2.1, h.2.2.2.2.1⟩

/-- C4 (counterexample): the defaults consumed by the fetch loop are not
those the claim states — the max-locations threshold is 1000 (not 100) and
the failure ceiling is 200 (not 2000). -/
theorem C4_claimed_defaults_false :
    ¬ (defaultMaxLocations = 100 ∧ minBoxExtent = 0.05 ∧
       defaultWaitingTime = 70 ∧ backoffCeiling = 300 ∧
       defaultMaxRetries = 2000) := by
  decide

/-- C4 (amended): the default values consumed by the core fetch loop are:
max-locations-per-request threshold 1000, minimum box extent 0.05°, initial
rate-limit backoff 70 s with ceiling 300 s, and max cumulative failures
before giving up 200. -/
theorem C4_actual_defaults :
    defaultMaxLocations = 1000 ∧ minBoxExtent = 0.05 ∧
    defaultWaitingTime = 70 ∧ backoffCeiling = 300 ∧
    defaultMaxRetries = 200 := by
  decide

/-- C8: writing boxes `B1..Bn` through `write_bbox` and rebuilding the
initial queue with `get_sized_bboxes` yields exactly `B1..Bn` in order, with
no insertion of the default region; the default box (or the configured
region `get_coordinates`) is used only when the file is absent or the
persisted queue is empty. -/
theorem C8_checkpoint_roundtrip (bs : List Box) (d : Option Box)
    (h : bs ≠ []) :
    get_sized_bboxes (some (write_bbox bs)) d = bs ∧
    get_sized_bboxes none d =
      (match d with | some b => [b] | none => [get_coordinates]) ∧
    get_sized_bboxes (some (write_bbox [])) d =
      (match d with | some b => [b] | none => [get_coordinates]) := by
  unfold get_sized_bboxes write_bbox read_data_bbox
  refine ⟨by simp [h], by simp, by simp⟩

/-- C8 (witness): the round trip on the two boxes of the `write_bbox`
docstring example. -/
theorem C8_checkpoint_roundtrip_witness :
    get_sized_bboxes (some (write_bbox [⟨45, 44, 2, 3⟩, ⟨46, 45, 3, 4⟩])) none
      = [⟨45, 44, 2, 3⟩, ⟨46, 45, 3, 4⟩] :=
  (C8_checkpoint_roundtrip [⟨45, 44, 2, 3⟩, ⟨46, 45, 3, 4⟩] none
    (by decide)).1

/-- C9: `create_new_rectangles` returns exactly the 4 quadrant boxes
(NW, NE, SW, SE) built from `mid_lat = (north+south)/2` and
`mid_lon = (west+est)/2`; their areas sum to the parent's area, and any
point shared by two distinct children lies on a midpoint boundary line. -/
theorem C9_split_quadrants (n s w e : ℚ) :
    create_new_rectangles n s w e =
      [⟨n, (n + s) / 2, w, (w + e) / 2⟩, ⟨n, (n + s) / 2, (w + e) / 2, e⟩,
       ⟨(n + s) / 2, s, w, (w + e) / 2⟩, ⟨(n + s) / 2, s, (w + e) / 2, e⟩] ∧
    (create_new_rectangles n s w e).length = 4 ∧
    ((create_new_rectangles n s w e).map boxArea).sum = boxArea ⟨n, s, w, e⟩ ∧
    (∀ b₁ b₂, b₁ ∈ create_new_rectangles n s w e →
      b₂ ∈ create_new_rectangles n s w e → b₁ ≠ b₂ →
      ∀ p : ℚ × ℚ, memBox b₁ p → memBox b₂ p →
        p.1 = (n + s) / 2 ∨ p.2 = (w + e) / 2) := by
  refine ⟨rfl, rfl, ?_, ?_⟩
  · have e1 : |n - (n + s) / 2| = |n - s| / 2 := by
      rw [show n - (n + s) / 2 = (n - s) / 2 by ring, abs_div]
      norm_num
    have e2 : |(n + s) / 2 - s| = |n - s| / 2 := by
      rw [show (n + s) / 2 - s = (n - s) / 2 by ring, abs_div]
      norm_num
    have e3 : |(w + e) / 2 - w| = |e - w| / 2 := by
      rw [show (w + e) / 2 - w = (e - w) / 2 by ring, abs_div]
      norm_num
    have e4 : |e - (w + e) / 2| = |e - w| / 2 := by
      rw [show e - (w + e) / 2 = (e - w) / 2 by ring, abs_div]
      norm_num
    simp only [create_new_rectangles, List.map_cons, List.map_nil,
      List.sum_cons, List.sum_nil, boxArea]
    rw [e1, e2, e3, e4]
    ring
  · intro b₁ b₂ hb₁ hb₂ hne p hp₁ hp₂
    simp only [create_new_rectangles, List.mem_cons, List.not_mem_nil,
      or_false] at hb₁ hb₂
    rcases hb₁ with rfl | rfl | rfl | rfl <;>
      rcases hb₂ with rfl | rfl | rfl | rfl <;>
      simp only [memBox] at hp₁ hp₂ <;>
      obtain ⟨h11, h12, h13, h14⟩ := hp₁ <;>
      obtain ⟨h21, h22, h23, h24⟩ := hp₂ <;>
      first
        | exact absurd rfl hne
        | (left; linarith)
        | (right; linarith)

/-- C9 (witness): the quadrants of the region `{50, 40, 0, 10}`. -/
theorem C9_split_quadrants_witness :
    create_new_rectangles 50 40 0 10 =
      [⟨50, 45, 0, 5⟩, ⟨50, 45, 5, 10⟩, ⟨45, 40, 0, 5⟩, ⟨45, 40, 5, 10⟩] := by
  have h := (C9_split_quadrants 50 40 0 10).1
  rw [h]
  norm_num

/-- C10: `get_response` never mutates its `params_template` argument: the
per-box substitution writes only to the copy `params` made on entry, so the
template dict — including its `bounding_box` entry with the placeholder
markers — is unchanged on exit, for every provider behaviour and every
argument. -/
theorem C10_params_template_preserved (provider : ℕ → Except String P)
    (north south west est : ℚ) (params_template : Dict) (waiting_time : ℕ)
    (max_locations : ℚ) (max_retries : ℕ) :
    (get_response_final provider north south west est params_template
        waiting_time max_locations max_retries).templateD = params_template := by
  unfold get_response_final
  rw [run_templateD]
  rfl

end Meteo
